import Mathlib

/-!
# StatPulse health-check core — shallow embedding

This file embeds the core logic of `scripts/check-health.js` (the StatPulse
health-probing engine): the constants, the anomaly detector, the result
construction of a single endpoint probe, the log store (read / trimmed write),
and the exit-status derivation of the orchestrator.  Numbers in the script are
JavaScript numbers holding integer millisecond counts or rationals produced by
`toFixed`-style rounding; they are modelled as `ℕ` / `ℚ` here.
-/

namespace StatPulse

/-- Constant `MAX_LOG_ENTRIES` — maximum number of check results kept in the log file. -/
def MAX_LOG_ENTRIES : ℕ := 200

/-- Constant `TIMEOUT_MS` — per-request timeout in milliseconds. -/
def TIMEOUT_MS : ℕ := 15000

/-- Constant `ANOMALY_WINDOW` — number of previous checks per endpoint in the rolling
average. -/
def ANOMALY_WINDOW : ℕ := 10

/-- Constant `ANOMALY_MIN_SAMPLES` — minimum historical samples before anomaly
detection fires. -/
def ANOMALY_MIN_SAMPLES : ℕ := 5

/-- Constant `ANOMALY_WARNING_FACTOR` — deviation factor triggering a WARNING. -/
def ANOMALY_WARNING_FACTOR : ℚ := 2

/-- Constant `ANOMALY_CRITICAL_FACTOR` — deviation factor triggering a CRITICAL. -/
def ANOMALY_CRITICAL_FACTOR : ℚ := 3

/-- JavaScript `Array.prototype.slice(-n)` for positive `n`: the last
`min n l.length` elements of `l`, in order. -/
def sliceLast (l : List α) (n : ℕ) : List α := l.drop (l.length - n)

/-- JavaScript `Math.round`: round to the nearest integer, ties towards `+∞`,
i.e. `⌊x + 1/2⌋`.  Written with `Rat.floor` so that it evaluates by kernel
reduction; `jsRound_eq_round` below identifies it with Mathlib's `round`. -/
def jsRound (x : ℚ) : ℤ := (x + 1/2).floor

/-- JS `parseFloat(x.toFixed(2))`: round a quantity to two decimal places (ECMA
`toFixed` picks the larger candidate on a tie, which is `jsRound` behaviour). -/
def jsRound2 (x : ℚ) : ℚ := (jsRound (100 * x) : ℚ) / 100

/-- The label/value pair produced by an endpoint's `extraMetric` extractor.
`value` is a JS number or string; `none` models JSON `null`. -/
inductive MetricValue where
  | num (q : ℚ)
  | str (s : String)
deriving DecidableEq, Repr

structure Metric where
  label : String
  value : Option MetricValue
deriving DecidableEq, Repr

/-- The `anomaly` object attached to a result.  `rollingAvgMs`,
`deviationFactor` and `severity` are absent (`none`) unless the corresponding
branch of `detectAnomaly` put them in the object. -/
structure AnomalyVerdict where
  detected : Bool
  rollingAvgMs : Option ℕ := none
  deviationFactor : Option ℚ := none
  severity : Option String := none
deriving DecidableEq, Repr

/-- One entry of `health-log.json` / one return value of `checkEndpoint`. -/
structure ProbeResult where
  endpoint : String
  url : String
  timestamp : String
  status : Option ℕ
  ok : Bool
  responseTimeMs : Option ℕ
  contentTypeValid : Bool
  responseSizeKB : Option ℚ
  extraMetric : Metric
  anomaly : AnomalyVerdict
  error : Option String
deriving DecidableEq, Repr

/-- The filter step of `detectAnomaly`: entries for this endpoint whose
`responseTimeMs` is not null. -/
def qualifying (endpointName : String) (historicalLog : List ProbeResult) :
    List ProbeResult :=
  historicalLog.filter fun r =>
    r.endpoint == endpointName && r.responseTimeMs.isSome

/-- The baseline window of `detectAnomaly`: `.filter(...).slice(-ANOMALY_WINDOW)`. -/
def anomalyWindow (endpointName : String) (historicalLog : List ProbeResult) :
    List ProbeResult :=
  sliceLast (qualifying endpointName historicalLog) ANOMALY_WINDOW

/-- JS `history.reduce((sum, r) => sum + r.responseTimeMs, 0)`.  Every element of
the window has a non-null `responseTimeMs`, so the `getD 0` default is inert. -/
def windowSum (history : List ProbeResult) : ℕ :=
  history.foldl (fun sum r => sum + r.responseTimeMs.getD 0) 0

/-- JS `Math.round(sum / history.length)` — the rolling average in ms.  The JS
value is a nonnegative integer, so we keep it in `ℕ`. -/
def rollingAvg (history : List ProbeResult) : ℕ :=
  (jsRound ((windowSum history : ℚ) / (history.length : ℚ))).toNat

/-- Function `detectAnomaly(endpointName, currentMs, historicalLog)` from
`scripts/check-health.js`. -/
def detectAnomaly (endpointName : String) (currentMs : Option ℕ)
    (historicalLog : List ProbeResult) : AnomalyVerdict :=
  match currentMs with
  | none => { detected := false }
  | some current =>
    let history := anomalyWindow endpointName historicalLog
    if history.length < ANOMALY_MIN_SAMPLES then { detected := false }
    else
      let rollingAvgMs := rollingAvg history
      if rollingAvgMs = 0 then { detected := false }
      else
        let deviationFactor := jsRound2 ((current : ℚ) / (rollingAvgMs : ℚ))
        if ANOMALY_CRITICAL_FACTOR ≤ deviationFactor then
          { detected := true, rollingAvgMs := some rollingAvgMs,
            deviationFactor := some deviationFactor, severity := some "critical" }
        else if ANOMALY_WARNING_FACTOR ≤ deviationFactor then
          { detected := true, rollingAvgMs := some rollingAvgMs,
            deviationFactor := some deviationFactor, severity := some "warning" }
        else
          { detected := false }

/-- Case-insensitive substring test on character lists. -/
def containsSub (needle : List Char) : List Char → Bool
  | [] => needle.isEmpty
  | c :: rest => needle.isPrefixOf (c :: rest) || containsSub needle rest

/-- The regex test `/xml|sdmx/i.test(s)` used for `contentTypeValid`. -/
def testXmlSdmx (s : String) : Bool :=
  containsSub "xml".toList s.toLower.toList ||
    containsSub "sdmx".toList s.toLower.toList

/-- One element of the `ENDPOINTS` array: name, URL and the domain-metric
extractor applied to the raw response body. -/
structure EndpointConfig where
  name : String
  url : String
  extraMetric : String → Metric

/-- The outcome of `fetch` inside `checkEndpoint`: either a response arrived
before the timeout (status, content-type header, body text, elapsed wall-clock
ms), or the awaited promise rejected (`err.name === 'AbortError'` marks the
timeout-triggered abort; `message` is `err.message`; elapsed ms up to the
rejection). -/
inductive FetchOutcome where
  | success (status : ℕ) (contentType : Option String) (body : String) (elapsedMs : ℕ)
  | failure (isAbortError : Bool) (message : String) (elapsedMs : ℕ)

/-- Returns `true` on the `catch` path of `checkEndpoint`. -/
def FetchOutcome.isFailure : FetchOutcome → Bool
  | .success _ _ _ _ => false
  | .failure _ _ _ => true

/-- Function `checkEndpoint(endpoint)` from `scripts/check-health.js`, as a function of
the fetch outcome.  The `result` record literal is the record of defaults the
script builds before the `try` block; the two match arms are the spread
updates performed on the success path and in the `catch` handler. -/
def checkEndpoint (endpoint : EndpointConfig) (timestamp : String)
    (outcome : FetchOutcome) : ProbeResult :=
  let result : ProbeResult :=
    { endpoint := endpoint.name, url := endpoint.url, timestamp := timestamp,
      status := none, ok := false, responseTimeMs := none,
      contentTypeValid := false, responseSizeKB := none,
      extraMetric := { label := (endpoint.extraMetric "").label, value := none },
      anomaly := { detected := false }, error := none }
  match outcome with
  | .success status contentType body elapsedMs =>
      { result with
        status := some status,
        ok := decide (200 ≤ status ∧ status ≤ 299),
        responseTimeMs := some elapsedMs,
        contentTypeValid := testXmlSdmx (contentType.getD ""),
        responseSizeKB := some (jsRound2 ((body.utf8ByteSize : ℚ) / 1024)),
        extraMetric := endpoint.extraMetric body }
  | .failure isAbortError message elapsedMs =>
      { result with
        responseTimeMs := some elapsedMs,
        error := some (if isAbortError then
            "Request timed out after " ++ toString TIMEOUT_MS ++ "ms"
          else message) }

/-- The per-result annotation step of `main`:
`result.anomaly = detectAnomaly(result.endpoint, result.responseTimeMs, log)`. -/
def annotateResult (historicalLog : List ProbeResult) (r : ProbeResult) :
    ProbeResult :=
  { r with anomaly := detectAnomaly r.endpoint r.responseTimeMs historicalLog }

/-- Count `results.filter((r) => !r.ok).length` in `main`. -/
def failCount (results : List ProbeResult) : ℕ :=
  (results.filter fun r => !r.ok).length

/-- The process exit code `main` yields for a completed run: `process.exit(1)`
fires iff `failCount === results.length`, otherwise the process terminates
normally with code 0. -/
def exitCode (results : List ProbeResult) : ℕ :=
  if failCount results = results.length then 1 else 0

/-- JSON values, as produced by `JSON.parse` / consumed by `JSON.stringify`. -/
inductive Json where
  | null
  | bool (b : Bool)
  | num (q : ℚ)
  | str (s : String)
  | arr (elements : List Json)
  | obj (fields : List (String × Json))

/-- Whether `Array.isArray` holds of a parsed JSON value. -/
def isJsonArray : Json → Bool
  | .arr _ => true
  | _ => false

/-- State of `data/health-log.json` on disk, as seen through
`readFileSync` + `JSON.parse`: the file is absent (`ENOENT`), present but not
parseable as JSON (`JSON.parse` throws), or parses to a JSON value. -/
inductive DiskFile where
  | absent
  | unparseable (raw : String)
  | parsed (value : Json)

/-- Function `readLog()` from `scripts/check-health.js`: empty list on a missing file,
on a parse error, and on a parsed value that is not an array; otherwise the
parsed array's elements. -/
def readLog : DiskFile → List Json
  | .absent => []
  | .unparseable _ => []
  | .parsed (.arr entries) => entries
  | .parsed _ => []

/-- Function `writeLog(log)`: trim to the last `MAX_LOG_ENTRIES` entries and write the
serialized array as the new file contents.  `JSON.stringify` followed by
`JSON.parse` is the identity on a JSON tree, so the post-state of the file is
modelled as the parsed array itself. -/
def writeLog (log : List Json) : DiskFile :=
  DiskFile.parsed (.arr (sliceLast log MAX_LOG_ENTRIES))

/-- View of an optional number under `JSON.stringify` (JSON `null` when absent). -/
def encodeOptNat : Option ℕ → Json
  | none => .null
  | some n => .num n

def encodeOptRat : Option ℚ → Json
  | none => .null
  | some q => .num q

def encodeOptStr : Option String → Json
  | none => .null
  | some s => .str s

def encodeMetricValue : Option MetricValue → Json
  | none => .null
  | some (.num q) => .num q
  | some (.str s) => .str s

/-- The `anomaly` object as serialized: optional keys are present exactly when
`detectAnomaly` put them in the returned object. -/
def encodeVerdict (v : AnomalyVerdict) : Json :=
  .obj ([("detected", .bool v.detected)]
    ++ (match v.rollingAvgMs with
        | none => [] | some a => [("rollingAvgMs", .num a)])
    ++ (match v.deviationFactor with
        | none => [] | some f => [("deviationFactor", .num f)])
    ++ (match v.severity with
        | none => [] | some s => [("severity", .str s)]))

/-- A `ProbeResult` as the JSON object `JSON.stringify` writes to the log,
field names and order exactly as in the script's `result` literal. -/
def encodeResult (r : ProbeResult) : Json :=
  .obj [("endpoint", .str r.endpoint), ("url", .str r.url),
    ("timestamp", .str r.timestamp), ("status", encodeOptNat r.status),
    ("ok", .bool r.ok), ("responseTimeMs", encodeOptNat r.responseTimeMs),
    ("contentTypeValid", .bool r.contentTypeValid),
    ("responseSizeKB", encodeOptRat r.responseSizeKB),
    ("extraMetric", .obj [("label", .str r.extraMetric.label),
      ("value", encodeMetricValue r.extraMetric.value)]),
    ("anomaly", encodeVerdict r.anomaly), ("error", encodeOptStr r.error)]

/-- Lemma: `jsRound` agrees with Mathlib's `round` on `ℚ`. -/
theorem jsRound_eq_round (x : ℚ) : jsRound x = round x := by
  rw [round_eq, jsRound, Rat.floor_def']
  exact Rat.floor_def.symm

/-- Evaluation rule for `jsRound`: `jsRound x = n` once `n ≤ x + 1/2 < n + 1`. -/
theorem jsRound_eq_of (x : ℚ) (n : ℤ) (h1 : (n : ℚ) ≤ x + 1/2)
    (h2 : x + 1/2 < (n : ℚ) + 1) : jsRound x = n := by
  rw [jsRound_eq_round, round_eq]
  exact Int.floor_eq_iff.mpr ⟨h1, by exact_mod_cast h2⟩

/-- Lemma: `sliceLast l n` is a suffix of `l`. -/
theorem sliceLast_suffix (l : List α) (n : ℕ) : sliceLast l n <:+ l :=
  List.drop_suffix _ _

/-- Length of `sliceLast`. -/
theorem length_sliceLast (l : List α) (n : ℕ) :
    (sliceLast l n).length = min n l.length := by
  simp only [sliceLast, List.length_drop]
  omega

/-- Lemma: `slice(-n)` of a list no longer than `n` is the whole list. -/
theorem sliceLast_of_le (l : List α) (n : ℕ) (h : l.length ≤ n) :
    sliceLast l n = l := by
  simp [sliceLast, Nat.sub_eq_zero_of_le h]

/-- A filter keeps every element exactly when every element satisfies the
predicate. -/
theorem length_filter_eq_length_iff (p : α → Bool) (l : List α) :
    (l.filter p).length = l.length ↔ ∀ a ∈ l, p a := by
  induction l with
  | nil => simp
  | cons a l ih =>
    have hle : (l.filter p).length ≤ l.length :=
      (List.filter_sublist (p := p) (l := l)).length_le
    cases hpa : p a with
    | true => simp [List.filter_cons, hpa, ih]
    | false =>
      simp only [List.filter_cons, hpa, if_neg, List.length_cons, Bool.false_eq_true,
        ite_false, List.mem_cons]
      constructor
      · intro h
        omega
      · intro h
        exact absurd (h a (Or.inl rfl)) (by simp [hpa])

/-- Fully-specified log entry used by concrete fixtures. -/
def entryAt (name : String) (ms : Option ℕ) : ProbeResult :=
  { endpoint := name, url := "u", timestamp := "t", status := some 200,
    ok := true, responseTimeMs := ms, contentTypeValid := true,
    responseSizeKB := some 1, extraMetric := { label := "l", value := none },
    anomaly := { detected := false }, error := none }

/-- A five-entry history for endpoint `S`, each 100 ms. -/
def log5 : List ProbeResult :=
  (List.range 5).map fun _ => entryAt "S" (some 100)

/-- Evaluation rule for `rollingAvg` at a computed sum and length. -/
theorem rollingAvg_eval (history : List ProbeResult) (s l : ℕ) (a : ℕ)
    (hs : windowSum history = s) (hl : history.length = l)
    (h : jsRound ((s : ℚ) / (l : ℚ)) = (a : ℤ)) : rollingAvg history = a := by
  rw [rollingAvg, hs, hl, h, Int.toNat_natCast]

/-- The five-sample history at 100 ms has rolling average 100. -/
theorem rollingAvg_log5 : rollingAvg (anomalyWindow "S" log5) = 100 := by
  apply rollingAvg_eval _ 500 5 100 (by decide) (by decide)
  have hq : ((500 : ℕ) : ℚ) / ((5 : ℕ) : ℚ) = 100 := by norm_num
  rw [hq]
  exact jsRound_eq_of 100 100 (by norm_num) (by norm_num)

/-- Claim C2: The process exit code of a completed run is 1 iff every result of
the run has `ok = false`; if at least one result has `ok = true` the run exits
with code 0 even when other endpoints failed. -/
theorem exitCode_one_iff_all_failed (results : List ProbeResult) :
    (exitCode results = 1 ↔ ∀ r ∈ results, r.ok = false) ∧
    (exitCode results = 0 ↔ ∃ r ∈ results, r.ok = true) := by
  have key : failCount results = results.length ↔ ∀ r ∈ results, r.ok = false := by
    rw [failCount, length_filter_eq_length_iff]
    simp
  by_cases hc : failCount results = results.length
  · have hall := key.mp hc
    simp only [exitCode, if_pos hc]
    constructor
    · exact iff_of_true trivial hall
    · constructor
      · intro h
        exact absurd h one_ne_zero
      · rintro ⟨r, hr, hok⟩
        exact absurd (hall r hr) (by simp [hok])
  · have hnall := (not_iff_not.mpr key).mp hc
    simp only [exitCode, if_neg hc]
    constructor
    · constructor
      · intro h
        exact absurd h zero_ne_one
      · intro h
        exact absurd h hnall
    · simp only [true_iff]
      by_contra hne
      push_neg at hne
      exact hnall fun r hr => by
        have := hne r hr
        simp only [Bool.not_eq_true] at this ⊢
        exact this

/-- Claim C3: After `writeLog`, the persisted log has length at most
`MAX_LOG_ENTRIES` (= 200), and the retained entries are exactly the last
`MAX_LOG_ENTRIES` entries of the input, in unchanged order: they form a suffix
of the input, only a prefix (the oldest entries) having been evicted. -/
theorem writeLog_retention (log : List Json) :
    (readLog (writeLog log)).length ≤ MAX_LOG_ENTRIES ∧
    (readLog (writeLog log)).length = min MAX_LOG_ENTRIES log.length ∧
    readLog (writeLog log) = log.drop (log.length - MAX_LOG_ENTRIES) ∧
    readLog (writeLog log) <:+ log := by
  have hrw : readLog (writeLog log) = sliceLast log MAX_LOG_ENTRIES := by
    rw [writeLog, readLog]
  refine ⟨?_, ?_, ?_, ?_⟩
  · rw [hrw, length_sliceLast]
    omega
  · rw [hrw, length_sliceLast]
  · rw [hrw]
    rfl
  · rw [hrw]
    exact sliceLast_suffix _ _

/-- Claim C7: `readLog` returns the empty list when the backing file is absent,
when its contents are unparseable JSON, and when they parse to a non-array
value; it is a total function, so none of these conditions can abort the run
or prevent a fresh log from being written. -/
theorem readLog_missing_or_corrupt (raw : String) (value : Json)
    (h : isJsonArray value = false) :
    readLog DiskFile.absent = [] ∧
    readLog (DiskFile.unparseable raw) = [] ∧
    readLog (DiskFile.parsed value) = [] := by
  refine ⟨rfl, rfl, ?_⟩
  cases value with
  | arr elements => simp [isJsonArray] at h
  | null => rfl
  | bool b => rfl
  | num q => rfl
  | str s => rfl
  | obj fields => rfl

/-- Witness for C7: a concrete corrupt state — the file holds non-JSON text,
or parses to the number `3` rather than an array. -/
theorem readLog_missing_or_corrupt_witness :
    readLog DiskFile.absent = [] ∧
    readLog (DiskFile.unparseable "not-json") = [] ∧
    readLog (DiskFile.parsed (Json.num 3)) = [] :=
  readLog_missing_or_corrupt "not-json" (Json.num 3) rfl

/-- Claim C8: Round trip: serializing a list of results with `writeLog` and
parsing it back with `readLog` yields the same results field-for-field when
there are at most `MAX_LOG_ENTRIES` (= 200) of them, and exactly the most
recent 200 otherwise. -/
theorem log_roundtrip (results : List ProbeResult) :
    readLog (writeLog (results.map encodeResult)) =
      if results.length ≤ MAX_LOG_ENTRIES then results.map encodeResult
      else (sliceLast results MAX_LOG_ENTRIES).map encodeResult := by
  have hrw : readLog (writeLog (results.map encodeResult)) =
      sliceLast (results.map encodeResult) MAX_LOG_ENTRIES := by
    rw [writeLog, readLog]
  rw [hrw]
  by_cases h : results.length ≤ MAX_LOG_ENTRIES
  · rw [if_pos h]
    exact sliceLast_of_le _ _ (by simpa using h)
  · rw [if_neg h]
    simp [sliceLast, List.map_drop]

/-- Once the baseline guards pass (window of at least `ANOMALY_MIN_SAMPLES`
entries, non-zero rolling average), `detectAnomaly` reduces to the two-threshold
comparison on the rounded deviation factor. -/
theorem detectAnomaly_established (name : String) (current : ℕ)
    (log : List ProbeResult)
    (h5 : ANOMALY_MIN_SAMPLES ≤ (anomalyWindow name log).length)
    (h0 : rollingAvg (anomalyWindow name log) ≠ 0) :
    detectAnomaly name (some current) log =
      (if ANOMALY_CRITICAL_FACTOR ≤
          jsRound2 ((current : ℚ) / (rollingAvg (anomalyWindow name log) : ℚ)) then
        { detected := true, rollingAvgMs := some (rollingAvg (anomalyWindow name log)),
          deviationFactor :=
            some (jsRound2 ((current : ℚ) / (rollingAvg (anomalyWindow name log) : ℚ))),
          severity := some "critical" }
      else if ANOMALY_WARNING_FACTOR ≤
          jsRound2 ((current : ℚ) / (rollingAvg (anomalyWindow name log) : ℚ)) then
        { detected := true, rollingAvgMs := some (rollingAvg (anomalyWindow name log)),
          deviationFactor :=
            some (jsRound2 ((current : ℚ) / (rollingAvg (anomalyWindow name log) : ℚ))),
          severity := some "warning" }
      else { detected := false }) := by
  simp only [detectAnomaly]
  rw [if_neg (not_lt.mpr h5), if_neg h0]

/-- Claim C4: With a qualifying baseline (at least `ANOMALY_MIN_SAMPLES`
window entries, non-zero rolling average), the deviation factor is
`currentMs / rollingAverage` rounded to two decimals, and the verdict is
monotonic in that factor: below 2.0 not detected, in `[2.0, 3.0)` a warning,
at or above 3.0 critical — each detected verdict carrying that factor and the
rolling average. -/
theorem detectAnomaly_deviation_monotone (name : String) (current : ℕ)
    (log : List ProbeResult) (avg : ℕ) (f : ℚ)
    (havg : rollingAvg (anomalyWindow name log) = avg)
    (hf : f = jsRound2 ((current : ℚ) / (avg : ℚ)))
    (h5 : ANOMALY_MIN_SAMPLES ≤ (anomalyWindow name log).length)
    (h0 : avg ≠ 0) :
    (f < ANOMALY_WARNING_FACTOR →
      detectAnomaly name (some current) log = { detected := false }) ∧
    (ANOMALY_WARNING_FACTOR ≤ f ∧ f < ANOMALY_CRITICAL_FACTOR →
      detectAnomaly name (some current) log =
        { detected := true, rollingAvgMs := some avg, deviationFactor := some f,
          severity := some "warning" }) ∧
    (ANOMALY_CRITICAL_FACTOR ≤ f →
      detectAnomaly name (some current) log =
        { detected := true, rollingAvgMs := some avg, deviationFactor := some f,
          severity := some "critical" }) := by
  subst havg
  subst hf
  have h := detectAnomaly_established name current log h5 h0
  have hwc : (ANOMALY_WARNING_FACTOR : ℚ) ≤ ANOMALY_CRITICAL_FACTOR := by
    norm_num [ANOMALY_WARNING_FACTOR, ANOMALY_CRITICAL_FACTOR]
  refine ⟨?_, ?_, ?_⟩
  · intro hfw
    rw [h, if_neg (not_le.mpr (lt_of_lt_of_le hfw hwc)), if_neg (not_le.mpr hfw)]
  · rintro ⟨h2, h3⟩
    rw [h, if_neg (not_le.mpr h3), if_pos h2]
  · intro h3
    rw [h, if_pos h3]

/-- Witness for C4 (the spec's Scenario B shape): five historical samples of
100 ms and a current reading of 350 ms give factor 3.5 and a critical
verdict. -/
theorem detectAnomaly_deviation_monotone_witness :
    detectAnomaly "S" (some 350) log5 =
      { detected := true, rollingAvgMs := some 100,
        deviationFactor := some (7/2 : ℚ), severity := some "critical" } := by
  have hf : (7/2 : ℚ) = jsRound2 (((350 : ℕ) : ℚ) / ((100 : ℕ) : ℚ)) := by
    have hq : ((350 : ℕ) : ℚ) / ((100 : ℕ) : ℚ) = 7/2 := by norm_num
    rw [jsRound2, hq]
    have hm : (100 : ℚ) * (7/2) = 350 := by norm_num
    rw [hm, jsRound_eq_of 350 350 (by norm_num) (by norm_num)]
    norm_num
  exact (detectAnomaly_deviation_monotone "S" 350 log5 100 (7/2) rollingAvg_log5 hf
    (by decide) (by norm_num)).2.2 (by norm_num [ANOMALY_CRITICAL_FACTOR])

/-- Claim C5: `detectAnomaly` is not-detected when the current reading is null
or when the endpoint has fewer than `ANOMALY_MIN_SAMPLES` qualifying history
entries (same endpoint, non-null `responseTimeMs`); the baseline window is the
most recent `ANOMALY_WINDOW` qualifying entries and never contains an entry
with null `responseTimeMs`. -/
theorem detectAnomaly_needs_baseline (name : String) (current : ℕ)
    (log : List ProbeResult) :
    detectAnomaly name none log = { detected := false } ∧
    ((qualifying name log).length < ANOMALY_MIN_SAMPLES →
      detectAnomaly name (some current) log = { detected := false }) ∧
    (∀ r ∈ anomalyWindow name log, r.responseTimeMs ≠ none) ∧
    anomalyWindow name log = sliceLast (qualifying name log) ANOMALY_WINDOW := by
  refine ⟨rfl, ?_, ?_, rfl⟩
  · intro hq
    have hw : (anomalyWindow name log).length < ANOMALY_MIN_SAMPLES := by
      rw [anomalyWindow, length_sliceLast]
      simp only [ANOMALY_MIN_SAMPLES] at hq ⊢
      omega
    simp only [detectAnomaly]
    rw [if_pos hw]
  · intro r hr
    have hmem : r ∈ qualifying name log :=
      (sliceLast_suffix (qualifying name log) ANOMALY_WINDOW).subset hr
    have hp := List.of_mem_filter hmem
    simp only [Bool.and_eq_true] at hp
    exact Option.isSome_iff_ne_none.mp hp.2

/-- Witness for C5: a history holding only two qualifying entries for `A` (a
third entry belongs to `B`, a fourth has null `responseTimeMs`). -/
def logSmall : List ProbeResult :=
  [entryAt "A" (some 100), entryAt "A" (some 110), entryAt "B" (some 100),
    entryAt "A" none]

theorem detectAnomaly_needs_baseline_witness :
    (qualifying "A" logSmall).length < ANOMALY_MIN_SAMPLES ∧
    detectAnomaly "A" (some 100) logSmall = { detected := false } ∧
    detectAnomaly "A" none logSmall = { detected := false } :=
  ⟨by decide, (detectAnomaly_needs_baseline "A" 100 logSmall).2.1 (by decide),
    (detectAnomaly_needs_baseline "A" 100 logSmall).1⟩

/-- Claim C9: When the rolling average of the (sufficiently large) baseline
window rounds to exactly 0, `detectAnomaly` returns not-detected: the guard
fires before the deviation quotient is ever formed. -/
theorem detectAnomaly_zero_average (name : String) (current : ℕ)
    (log : List ProbeResult)
    (h5 : ANOMALY_MIN_SAMPLES ≤ (anomalyWindow name log).length)
    (h0 : rollingAvg (anomalyWindow name log) = 0) :
    detectAnomaly name (some current) log = { detected := false } := by
  simp only [detectAnomaly]
  rw [if_neg (not_lt.mpr h5), if_pos h0]

/-- Witness for C9: five historical samples of 0 ms. -/
def logZeros : List ProbeResult :=
  (List.range 5).map fun _ => entryAt "Z" (some 0)

theorem detectAnomaly_zero_average_witness :
    detectAnomaly "Z" (some 100) logZeros = { detected := false } := by
  have havg : rollingAvg (anomalyWindow "Z" logZeros) = 0 := by
    apply rollingAvg_eval _ 0 5 0 (by decide) (by decide)
    have hq : ((0 : ℕ) : ℚ) / ((5 : ℕ) : ℚ) = 0 := by norm_num
    rw [hq]
    exact jsRound_eq_of 0 0 (by norm_num) (by norm_num)
  exact detectAnomaly_zero_average "Z" 100 logZeros (by decide) havg

/-- Claim C10: Every verdict `detectAnomaly` returns is either the bare
not-detected object (no rolling average, factor or severity attached), or a
detected one carrying a rolling average `≥ 1`, a deviation factor `≥ 2`, and
severity `"critical"` exactly when the factor is `≥ 3`, `"warning"`
otherwise. -/
theorem detectAnomaly_verdict_shape (name : String) (currentMs : Option ℕ)
    (log : List ProbeResult) :
    detectAnomaly name currentMs log =
      { detected := false, rollingAvgMs := none, deviationFactor := none,
        severity := none } ∨
    ∃ a f s, detectAnomaly name currentMs log =
        { detected := true, rollingAvgMs := some a, deviationFactor := some f,
          severity := some s } ∧
      1 ≤ a ∧ ANOMALY_WARNING_FACTOR ≤ f ∧
      ((s = "critical" ∧ ANOMALY_CRITICAL_FACTOR ≤ f) ∨
        (s = "warning" ∧ f < ANOMALY_CRITICAL_FACTOR)) := by
  have hwc : (ANOMALY_WARNING_FACTOR : ℚ) ≤ ANOMALY_CRITICAL_FACTOR := by
    norm_num [ANOMALY_WARNING_FACTOR, ANOMALY_CRITICAL_FACTOR]
  cases currentMs with
  | none => exact Or.inl rfl
  | some current =>
    by_cases h5 : (anomalyWindow name log).length < ANOMALY_MIN_SAMPLES
    · left
      simp only [detectAnomaly]
      rw [if_pos h5]
    · by_cases h0 : rollingAvg (anomalyWindow name log) = 0
      · left
        simp only [detectAnomaly]
        rw [if_neg h5, if_pos h0]
      · have h := detectAnomaly_established name current log (not_lt.mp h5) h0
        by_cases hc : ANOMALY_CRITICAL_FACTOR ≤
            jsRound2 ((current : ℚ) / (rollingAvg (anomalyWindow name log) : ℚ))
        · right
          refine ⟨rollingAvg (anomalyWindow name log), _, "critical",
            ?_, Nat.one_le_iff_ne_zero.mpr h0, le_trans hwc hc, Or.inl ⟨rfl, hc⟩⟩
          rw [h, if_pos hc]
        · by_cases hw : ANOMALY_WARNING_FACTOR ≤
              jsRound2 ((current : ℚ) / (rollingAvg (anomalyWindow name log) : ℚ))
          · right
            refine ⟨rollingAvg (anomalyWindow name log), _, "warning",
              ?_, Nat.one_le_iff_ne_zero.mpr h0, hw, Or.inr ⟨rfl, not_le.mp hc⟩⟩
            rw [h, if_neg hc, if_pos hw]
          · left
            rw [h, if_neg hc, if_neg hw]

/-- A concrete endpoint descriptor used by the counterexamples. -/
def endpointS : EndpointConfig :=
  { name := "S", url := "https://example.invalid/rest",
    extraMetric := fun body =>
      { label := "body length", value := some (.num (body.length : ℚ)) } }

/-- Claim C1 counterexample: On a transport failure, the `catch` handler stores
the elapsed time in `responseTimeMs` while also populating `error`, so
"`responseTimeMs` is null iff `error` is non-null" fails: this probe has
`error = some "fetch failed"` and `responseTimeMs = some 42`. -/
theorem responseTime_null_iff_error_counterexample :
    ¬ (((checkEndpoint endpointS "2025-01-01T00:00:00.000Z"
          (FetchOutcome.failure false "fetch failed" 42)).responseTimeMs = none) ↔
        (checkEndpoint endpointS "2025-01-01T00:00:00.000Z"
          (FetchOutcome.failure false "fetch failed" 42)).error ≠ none) := by
  have h1 : (checkEndpoint endpointS "2025-01-01T00:00:00.000Z"
      (FetchOutcome.failure false "fetch failed" 42)).responseTimeMs = some 42 := rfl
  have h2 : (checkEndpoint endpointS "2025-01-01T00:00:00.000Z"
      (FetchOutcome.failure false "fetch failed" 42)).error = some "fetch failed" := rfl
  intro hiff
  have hnone := hiff.mpr (by rw [h2]; exact fun hcon => Option.noConfusion hcon)
  rw [h1] at hnone
  exact Option.noConfusion hnone

/-- Claim C1 amended: Every probe result produced by `checkEndpoint` has a
non-null `responseTimeMs` (the elapsed time, on the success and the failure
path alike); `error` is non-null exactly for the failed probes. -/
theorem checkEndpoint_responseTime_never_null (endpoint : EndpointConfig)
    (timestamp : String) (outcome : FetchOutcome) :
    (∃ t, (checkEndpoint endpoint timestamp outcome).responseTimeMs = some t) ∧
    ((∃ e, (checkEndpoint endpoint timestamp outcome).error = some e) ↔
      outcome.isFailure = true) := by
  cases outcome with
  | success status contentType body elapsedMs =>
    exact ⟨⟨elapsedMs, rfl⟩, by simp [checkEndpoint, FetchOutcome.isFailure]⟩
  | failure isAbortError message elapsedMs =>
    exact ⟨⟨elapsedMs, rfl⟩, by simp [checkEndpoint, FetchOutcome.isFailure]⟩

/-- Claim C6 counterexample: A timed-out probe is *not* guaranteed an anomaly
verdict of `detected = false`: with five historical samples of 100 ms, a
timeout after 15000 ms is scored against the baseline (its `responseTimeMs`
is non-null) and comes out `detected = true` (critical). -/
theorem checkEndpoint_timeout_counterexample :
    (annotateResult log5 (checkEndpoint endpointS "t"
        (FetchOutcome.failure true "aborted" 15000))).anomaly.detected = true := by
  have h1 : (annotateResult log5 (checkEndpoint endpointS "t"
      (FetchOutcome.failure true "aborted" 15000))).anomaly =
      detectAnomaly "S" (some 15000) log5 := rfl
  rw [h1]
  have h := detectAnomaly_established "S" 15000 log5 (by decide)
    (by rw [rollingAvg_log5]; norm_num)
  rw [rollingAvg_log5] at h
  have hf : jsRound2 (((15000 : ℕ) : ℚ) / ((100 : ℕ) : ℚ)) = 150 := by
    have hq : ((15000 : ℕ) : ℚ) / ((100 : ℕ) : ℚ) = 150 := by norm_num
    rw [jsRound2, hq]
    have hm : (100 : ℚ) * 150 = 15000 := by norm_num
    rw [hm, jsRound_eq_of 15000 15000 (by norm_num) (by norm_num)]
    norm_num
  rw [hf] at h
  rw [h, if_pos (by norm_num [ANOMALY_CRITICAL_FACTOR])]

/-- Claim C6 amended: On timeout (`AbortError`), `checkEndpoint` returns
`error` naming the configured 15000 ms timeout, `ok = false`, a null HTTP
status, a null domain-metric value, and `responseTimeMs` equal to the elapsed
time up to cancellation; the later annotation step computes the anomaly
verdict from that elapsed time against the historical baseline, exactly as
for any probe with a non-null response time (so it need not be
`detected = false`). -/
theorem checkEndpoint_timeout (endpoint : EndpointConfig) (timestamp : String)
    (message : String) (elapsedMs : ℕ) (log : List ProbeResult) :
    (checkEndpoint endpoint timestamp
        (FetchOutcome.failure true message elapsedMs)).error =
      some ("Request timed out after " ++ toString TIMEOUT_MS ++ "ms") ∧
    toString TIMEOUT_MS = "15000" ∧
    (checkEndpoint endpoint timestamp
        (FetchOutcome.failure true message elapsedMs)).ok = false ∧
    (checkEndpoint endpoint timestamp
        (FetchOutcome.failure true message elapsedMs)).status = none ∧
    (checkEndpoint endpoint timestamp
        (FetchOutcome.failure true message elapsedMs)).extraMetric.value = none ∧
    (checkEndpoint endpoint timestamp
        (FetchOutcome.failure true message elapsedMs)).responseTimeMs =
      some elapsedMs ∧
    (annotateResult log (checkEndpoint endpoint timestamp
        (FetchOutcome.failure true message elapsedMs))).anomaly =
      detectAnomaly endpoint.name (some elapsedMs) log :=
  ⟨rfl, rfl, rfl, rfl, rfl, rfl, rfl⟩

end StatPulse
